import Mathlib

/-!
Shallow embedding of `src/fetcher/fetch_order_book_upbit.py` (Upbit order-book
collector): the persistence writer (`get_or_create_symbol_id`,
`store_orderbook_snapshot` with commit/rollback semantics over a PostgreSQL
connection), the per-symbol store throttle and spread printer of
`UpbitOrderBookStreamer._handle_message`, and a two-caller interleaving model
of the lookup-or-create race.  Python floats (times, prices, sizes) are
modelled as rationals, integer timestamps as integers, dicts as association
lists, SQL tables as lists of row structures.
-/

namespace Upbit

/-- One entry of `orderbook_units` in an Upbit order-book message. -/
structure BookUnit where
  ask_price : ℚ
  bid_price : ℚ
  ask_size : ℚ
  bid_size : ℚ
deriving DecidableEq

/-- A decoded order-book message (the fields read by the Python code). -/
structure Orderbook where
  code : String
  timestamp : ℤ
  total_ask_size : Option ℚ
  total_bid_size : Option ℚ
  stream_type : Option String
  orderbook_units : List BookUnit
deriving DecidableEq

/-- A row of `upbit_symbols`. -/
structure SymbolRow where
  symbol_id : ℕ
  symbol_code : String
  base_currency : String
  quote_currency : String
deriving DecidableEq

/-- A row of `upbit_orderbook_snapshots`. -/
structure SnapshotRow where
  snapshot_id : ℕ
  symbol_id : ℕ
  timestamp : ℤ
  total_ask_size : Option ℚ
  total_bid_size : Option ℚ
  stream_type : Option String
  units_count : ℕ
deriving DecidableEq

/-- A row of `upbit_order_book_data`. -/
structure DataRow where
  snapshot_id : ℕ
  symbol_id : ℕ
  timestamp : ℤ
  ask_price : ℚ
  bid_price : ℚ
  ask_size : ℚ
  bid_size : ℚ
  unit_level : ℕ
deriving DecidableEq

/-- The three tables plus the two SERIAL sequences. -/
structure DB where
  symbols : List SymbolRow
  snapshots : List SnapshotRow
  dataRows : List DataRow
  next_symbol_id : ℕ
  next_snapshot_id : ℕ
deriving DecidableEq

/-- A psycopg2 connection with `autocommit = False`: `committed` is what other
readers observe, `pending` is the state seen inside the open transaction.
`handle_id` identifies the connection object (`connect_db` assigns it; no code
path of the streamer ever replaces it). -/
structure Conn where
  handle_id : ℕ
  committed : DB
  pending : DB
deriving DecidableEq

/-- `conn.commit()`. -/
def commitConn (c : Conn) : Conn := ⟨c.handle_id, c.pending, c.pending⟩

/-- `conn.rollback()`. -/
def rollbackConn (c : Conn) : Conn := ⟨c.handle_id, c.committed, c.committed⟩

/-- `SELECT symbol_id FROM upbit_symbols WHERE symbol_code = %s` + `fetchone`. -/
def lookupSymbol (db : DB) (code : String) : Option ℕ :=
  (db.symbols.find? (fun r => r.symbol_code == code)).map (·.symbol_id)

/-- `if "-" in symbol_code: quote, base = symbol_code.split("-", 1)
    else: base, quote = symbol_code, "KRW"`; returns `(base, quote)`. -/
def parseSymbol (code : String) : String × String :=
  if code.toList.contains '-' then
    (String.mk ((code.toList.dropWhile (fun c => c != '-')).tail),
     String.mk (code.toList.takeWhile (fun c => c != '-')))
  else
    (code, "KRW")

/-- `INSERT INTO upbit_symbols (symbol_code, base_currency, quote_currency)
    VALUES ... RETURNING symbol_id` on the open transaction. -/
def insertSymbol (db : DB) (code base quote : String) : DB :=
  { db with
    symbols := db.symbols ++ [⟨db.next_symbol_id, code, base, quote⟩]
    next_symbol_id := db.next_symbol_id + 1 }

/-- `INSERT INTO upbit_orderbook_snapshots ... RETURNING snapshot_id`. -/
def insertSnapshot (db : DB) (symbol_id : ℕ) (ob : Orderbook) : DB :=
  { db with
    snapshots := db.snapshots ++
      [⟨db.next_snapshot_id, symbol_id, ob.timestamp, ob.total_ask_size,
        ob.total_bid_size, ob.stream_type, ob.orderbook_units.length⟩]
    next_snapshot_id := db.next_snapshot_id + 1 }

/-- The rows built by `for level, unit in enumerate(units, 1)` starting at
rank `level`. -/
def mkLevelRows (snapshot_id symbol_id : ℕ) (timestamp : ℤ) :
    ℕ → List BookUnit → List DataRow
  | _, [] => []
  | level, u :: us =>
      ⟨snapshot_id, symbol_id, timestamp, u.ask_price, u.bid_price,
        u.ask_size, u.bid_size, level⟩
        :: mkLevelRows snapshot_id symbol_id timestamp (level + 1) us

/-- `cur.executemany("INSERT INTO upbit_order_book_data ...", rows)`. -/
def insertLevels (db : DB) (snapshot_id symbol_id : ℕ) (timestamp : ℤ)
    (units : List BookUnit) : DB :=
  { db with
    dataRows := db.dataRows ++ mkLevelRows snapshot_id symbol_id timestamp 1 units }

/-- Injected storage-failure points: the symbol INSERT, the snapshot INSERT,
or the level `executemany` after `k` rows reached the open transaction. -/
inductive FailPoint where
  | symInsert
  | snapInsert
  | levelInsert (k : ℕ)
deriving DecidableEq

/-- `get_or_create_symbol_id(conn, symbol_code)`: SELECT; if a row is found
return its id; otherwise parse base/quote, INSERT, `conn.commit()` and return
the new id.  On an injected failure the `except` clause rolls back and
re-raises (`Except.error` carries the connection after rollback). -/
def get_or_create_symbol_id (fail : Option FailPoint) (conn : Conn)
    (symbol_code : String) : Except Conn (ℕ × Conn) :=
  match lookupSymbol conn.pending symbol_code with
  | some sid => .ok (sid, conn)
  | none =>
      if fail = some .symInsert then .error (rollbackConn conn)
      else
        let bq := parseSymbol symbol_code
        let sid := conn.pending.next_symbol_id
        .ok (sid, commitConn
          { conn with pending := insertSymbol conn.pending symbol_code bq.1 bq.2 })

/-- `store_orderbook_snapshot(conn, orderbook)`: resolve the symbol id (which
commits on its own when it inserts), INSERT the snapshot row, INSERT all level
rows, `conn.commit()`.  Any failure rolls back the open transaction and
re-raises. -/
def store_orderbook_snapshot (fail : Option FailPoint) (conn : Conn)
    (ob : Orderbook) : Except Conn (ℕ × Conn) :=
  match get_or_create_symbol_id fail conn ob.code with
  | .error c => .error (rollbackConn c)
  | .ok (symbol_id, conn1) =>
      if fail = some .snapInsert then .error (rollbackConn conn1)
      else
        let snapshot_id := conn1.pending.next_snapshot_id
        let db2 := insertSnapshot conn1.pending symbol_id ob
        match fail with
        | some (.levelInsert k) =>
            .error (rollbackConn { conn1 with
              pending := insertLevels db2 snapshot_id symbol_id ob.timestamp
                (ob.orderbook_units.take k) })
        | _ =>
            .ok (snapshot_id, commitConn { conn1 with
              pending := insertLevels db2 snapshot_id symbol_id ob.timestamp
                ob.orderbook_units })

/-- `d.get(key, 0)` on a Python dict modelled as an association list. -/
def lookupD (m : List (String × ℚ)) (k : String) : ℚ :=
  ((m.lookup k).getD 0)

/-- `d[key] = v` (the most recent binding shadows older ones). -/
def setKey (m : List (String × ℚ)) (k : String) (v : ℚ) : List (String × ℚ) :=
  (k, v) :: m

/-- The store-throttle condition of `_handle_message`:
`self.store_interval == 0 or now - self._last_store.get(symbol, 0) >= self.store_interval`. -/
def storeGate (interval : ℚ) (last_store : List (String × ℚ)) (symbol : String)
    (now : ℚ) : Bool :=
  decide (interval = 0) || decide (interval ≤ now - lookupD last_store symbol)

/-- `max(units, key=lambda u: u["ask_price"])` (first maximal element wins). -/
def maxByAsk : BookUnit → List BookUnit → BookUnit
  | best, [] => best
  | best, u :: us => maxByAsk (if best.ask_price < u.ask_price then u else best) us

/-- `min(units, key=lambda u: u["bid_price"])` (first minimal element wins). -/
def minByBid : BookUnit → List BookUnit → BookUnit
  | best, [] => best
  | best, u :: us => minByBid (if u.bid_price < best.bid_price then u else best) us

/-- Mutable state of `UpbitOrderBookStreamer`: the DB connection made in
`__init__`, `self._last_print` and `self._last_store`. -/
structure StreamerState where
  conn : Conn
  last_print : List (String × ℚ)
  last_store : List (String × ℚ)
deriving DecidableEq

/-- `_maybe_print_spread(orderbook)` at wall-clock time `now`: when the
per-symbol 1-second print timer is open, compute the spread from the max-ask
and min-bid units, emit it, and record `now`; an empty unit list makes
Python's `max()` raise before the timer is recorded (the emitted value is
`none`). -/
def maybe_print_spread (last_print : List (String × ℚ)) (ob : Orderbook)
    (now : ℚ) : List (String × ℚ) × Option ℚ :=
  if 1 ≤ now - lookupD last_print ob.code then
    match ob.orderbook_units with
    | [] => (last_print, none)
    | u :: us =>
        (setKey last_print ob.code now,
         some ((maxByAsk u us).ask_price - (minByBid u us).bid_price))
  else (last_print, none)

/-- `_handle_message(message)` at wall-clock time `now`.  `msg = none` is a
message `json.loads` rejects (the `except` clause swallows the error).  A
non-`orderbook` type tag returns early.  Otherwise, when the store gate is
open, `store_orderbook_snapshot` runs; only on its success is
`self._last_store[symbol] = now` executed and the spread printer reached — a
raised store jumps to the `except` clause, which logs and returns.  All
failure handling keeps `self.conn` as is. -/
def handle_message (print_spread : Bool) (store_interval : ℚ)
    (fail : Option FailPoint) (st : StreamerState) (msg : Option Orderbook)
    (now : ℚ) : StreamerState :=
  match msg with
  | none => st
  | some ob =>
      if storeGate store_interval st.last_store ob.code now then
        match store_orderbook_snapshot fail st.conn ob with
        | .error c => { st with conn := c }
        | .ok (_, c) =>
            let st1 : StreamerState :=
              { st with conn := c, last_store := setKey st.last_store ob.code now }
            if print_spread then
              { st1 with last_print := (maybe_print_spread st1.last_print ob now).1 }
            else st1
      else
        if print_spread then
          { st with last_print := (maybe_print_spread st.last_print ob now).1 }
        else st

/-- A raw inbound frame: either it parses to structured data with a type tag
(and, when that tag is `"orderbook"`, the order-book payload), or it is
malformed. -/
inductive RawMessage where
  | parsed (type_tag : String) (payload : Orderbook)
  | malformed
deriving DecidableEq

/-- Decode step of `_handle_message`: `json.loads` then the
`orderbook.get("type") != "orderbook"` early return. -/
def decodeMessage : RawMessage → Option Orderbook
  | .parsed tag ob => if tag = "orderbook" then some ob else none
  | .malformed => none

/-- Handle one raw frame: decode, then process. -/
def handle_raw (print_spread : Bool) (store_interval : ℚ)
    (fail : Option FailPoint) (st : StreamerState) (m : RawMessage) (now : ℚ) :
    StreamerState :=
  handle_message print_spread store_interval fail st (decodeMessage m) now

/-- Run the handler over a stream of (frame, arrival time, injected failure)
triples. -/
def runMessages (print_spread : Bool) (store_interval : ℚ)
    (st : StreamerState) : List (RawMessage × ℚ × Option FailPoint) → StreamerState
  | [] => st
  | (m, now, fail) :: rest =>
      runMessages print_spread store_interval
        (handle_raw print_spread store_interval fail st m now) rest

/-- `self.store_interval = max(0.0, store_interval)` in
`UpbitOrderBookStreamer.__init__`. -/
def effectiveStoreInterval (store_interval : ℚ) : ℚ :=
  max 0 store_interval

/-- The pieces of streamer state that persistence depends on and acts on:
everything except the spread printer's timer map. -/
def persistPart (st : StreamerState) : Conn × List (String × ℚ) :=
  (st.conn, st.last_store)

/-- Progress of one caller running `get_or_create_symbol_id` for a fixed code:
about to run the SELECT, about to run the INSERT (the SELECT found nothing),
returned an id, or raised (the INSERT hit the unique `symbol_code`
constraint). -/
inductive CallerState where
  | atSelect
  | atInsert
  | finOk (symbol_id : ℕ)
  | finRaised
deriving DecidableEq

/-- One database step of a caller.  The INSERT together with the adjacent
`conn.commit()` is one atomic step; a concurrent INSERT of the same code is
rejected by the unique constraint and raises. -/
def callerStep (code : String) (db : DB) : CallerState → DB × CallerState
  | .atSelect =>
      match lookupSymbol db code with
      | some sid => (db, .finOk sid)
      | none => (db, .atInsert)
  | .atInsert =>
      if (lookupSymbol db code).isSome then (db, .finRaised)
      else
        let bq := parseSymbol code
        (insertSymbol db code bq.1 bq.2, .finOk db.next_symbol_id)
  | s => (db, s)

/-- Two concurrent callers over one shared store. -/
structure ConcState where
  db : DB
  c0 : CallerState
  c1 : CallerState
deriving DecidableEq

/-- Scheduler step: `true` advances caller 0, `false` caller 1. -/
def concStep (code : String) (s : ConcState) : Bool → ConcState
  | true => ⟨(callerStep code s.db s.c0).1, (callerStep code s.db s.c0).2, s.c1⟩
  | false => ⟨(callerStep code s.db s.c1).1, s.c0, (callerStep code s.db s.c1).2⟩

/-- Run a schedule (an interleaving of the two callers). -/
def concRun (code : String) (s : ConcState) : List Bool → ConcState
  | [] => s
  | b :: bs => concRun code (concStep code s b) bs

/-- A caller has returned or raised. -/
def callerDone : CallerState → Bool
  | .finOk _ => true
  | .finRaised => true
  | _ => false

/-- A caller has returned an id without raising. -/
def callerOk : CallerState → Bool
  | .finOk _ => true
  | _ => false

/-- Number of `upbit_symbols` rows carrying a given code. -/
def countCode (db : DB) (code : String) : ℕ :=
  (db.symbols.filter (fun r => r.symbol_code == code)).length

/-- The connection carried by a store result, whether it succeeded or raised. -/
def connOf : Except Conn (ℕ × Conn) → Conn
  | .error c => c
  | .ok (_, c) => c

/-- Whether a store attempt raised. -/
def isStoreError : Except Conn (ℕ × Conn) → Bool
  | .error _ => true
  | .ok _ => false

/-- `max(...)` of the ask prices of a head unit and the remaining units. -/
def maxAskPrice (u : BookUnit) (us : List BookUnit) : ℚ :=
  (us.map (·.ask_price)).foldl max u.ask_price

/-- `min(...)` of the bid prices of a head unit and the remaining units. -/
def minBidPrice (u : BookUnit) (us : List BookUnit) : ℚ :=
  (us.map (·.bid_price)).foldl min u.bid_price

/-- An empty database whose SERIAL sequences start at 1. -/
def sampleDB : DB := ⟨[], [], [], 1, 1⟩

/-- A fresh connection (handle 7) over the empty database. -/
def sampleConn : Conn := ⟨7, sampleDB, sampleDB⟩

/-- A freshly initialised streamer over `sampleConn`. -/
def sampleState : StreamerState := ⟨sampleConn, [], []⟩

/-- A two-level order-book message for a code the database has never seen. -/
def sampleOb : Orderbook :=
  ⟨"USDT-BTC", 100, some 4, some 6, some "SNAPSHOT",
   [⟨10, 9, 1, 2⟩, ⟨11, 8, 3, 4⟩]⟩

end Upbit

namespace Upbit

/- ### Claim C2: throttle-gate admission rule -/

/-- Claim C2 (corrected), counterexample: with interval 10 and an empty
last-store map (no update admitted yet), the first update arriving at time 5
is NOT admitted, because the absent map entry defaults to 0 and `5 - 0 < 10`;
the gate does not admit the first update unconditionally. -/
theorem first_update_not_unconditional :
    storeGate 10 [] "USDT-BTC" 5 = false := by
  norm_num [storeGate, lookupD]

/-- Claim C2 (amended): the gate admits an update iff the interval is 0 or
the arrival time is at least the recorded last-store time (an absent entry
counting as time 0) plus the interval; with interval 0 every update is
admitted; for the first update of an instrument (empty map) with a nonzero
interval, admission holds iff the arrival time is at least the interval. -/
theorem throttle_gate_spec :
    (∀ (interval now : ℚ) (m : List (String × ℚ)) (s : String),
        interval = 0 → storeGate interval m s now = true) ∧
    (∀ (interval now : ℚ) (m : List (String × ℚ)) (s : String),
        storeGate interval m s now = true ↔
          (interval = 0 ∨ lookupD m s + interval ≤ now)) ∧
    (∀ (interval now : ℚ) (s : String), interval ≠ 0 →
        (storeGate interval [] s now = true ↔ interval ≤ now)) := by
  refine ⟨fun interval now m s h => ?_, fun interval now m s => ?_,
    fun interval now s h => ?_⟩
  · simp [storeGate, h]
  · simp [storeGate, le_sub_iff_add_le, add_comm]
  · simp [storeGate, h, lookupD]

/-- Claim C2 witness: concrete admissions through `throttle_gate_spec`. -/
theorem throttle_gate_spec_witness :
    storeGate 0 [] "A" 5 = true ∧
    (storeGate 2 [("A", 3)] "A" 5 = true ↔
      ((2 : ℚ) = 0 ∨ lookupD [("A", 3)] "A" + 2 ≤ 5)) ∧
    (storeGate 10 [] "A" 25 = true ↔ (10 : ℚ) ≤ 25) :=
  ⟨throttle_gate_spec.1 0 5 [] "A" rfl,
   throttle_gate_spec.2.1 2 5 [("A", 3)] "A",
   throttle_gate_spec.2.2 10 25 "A" (by norm_num)⟩

/- ### Claim C9: non-orderbook messages are a no-op -/

/-- Claim C9 (confirmed): handling a parsed message whose type tag differs
from `"orderbook"` returns the streamer state unchanged — in particular no
symbol, snapshot or level row is written and the last-store throttle map is
untouched. -/
theorem non_orderbook_message_noop
    (ps : Bool) (interval : ℚ) (fail : Option FailPoint) (st : StreamerState)
    (tag : String) (ob : Orderbook) (now : ℚ) (h : tag ≠ "orderbook") :
    handle_raw ps interval fail st (.parsed tag ob) now = st ∧
    (handle_raw ps interval fail st (.parsed tag ob) now).conn.committed =
      st.conn.committed ∧
    (handle_raw ps interval fail st (.parsed tag ob) now).last_store =
      st.last_store := by
  have hdec : decodeMessage (.parsed tag ob) = none := by
    simp [decodeMessage, h]
  refine ⟨?_, ?_, ?_⟩ <;> simp [handle_raw, hdec, handle_message]

/-- Claim C9 witness: a `"ticker"` frame leaves the fresh streamer state
untouched. -/
theorem non_orderbook_message_noop_witness :
    handle_raw false 1 none sampleState (.parsed "ticker" sampleOb) 5 =
      sampleState :=
  (non_orderbook_message_noop false 1 none sampleState "ticker" sampleOb 5
    (by decide)).1

/- ### Claim C10: negative configured interval is pass-through -/

/-- Claim C10 (confirmed): `__init__` clamps the configured store interval
with `max(0.0, store_interval)`, so a non-positive configured value yields
effective interval 0, the gate then admits every update for every instrument,
and message handling is literally that of interval 0. -/
theorem negative_interval_passthrough (v : ℚ) (hv : v ≤ 0) :
    effectiveStoreInterval v = 0 ∧
    (∀ (ls : List (String × ℚ)) (s : String) (now : ℚ),
        storeGate (effectiveStoreInterval v) ls s now = true) ∧
    (∀ (ps : Bool) (fail : Option FailPoint) (st : StreamerState)
        (msg : Option Orderbook) (now : ℚ),
        handle_message ps (effectiveStoreInterval v) fail st msg now =
          handle_message ps 0 fail st msg now) := by
  have h0 : effectiveStoreInterval v = 0 := by
    simp [effectiveStoreInterval, max_eq_left hv]
  refine ⟨h0, fun ls s now => ?_, fun ps fail st msg now => ?_⟩
  · simp [h0, storeGate]
  · rw [h0]

/-- Claim C10 witness: configured interval −1 behaves as interval 0. -/
theorem negative_interval_passthrough_witness :
    effectiveStoreInterval (-1) = 0 ∧
    storeGate (effectiveStoreInterval (-1)) [("A", 100)] "A" 100 = true :=
  ⟨(negative_interval_passthrough (-1) (by norm_num)).1,
   (negative_interval_passthrough (-1) (by norm_num)).2.1 [("A", 100)] "A" 100⟩

/- ### Claim C6: behaviour on storage failure / lost storage connection -/

lemma get_or_create_handle_id (fail : Option FailPoint) (conn : Conn)
    (code : String) :
    (connOf (get_or_create_symbol_id fail conn code)).handle_id = conn.handle_id := by
  cases hl : lookupSymbol conn.pending code
  · by_cases hf : fail = some FailPoint.symInsert
    · simp [get_or_create_symbol_id, hl, hf, connOf, rollbackConn]
    · simp [get_or_create_symbol_id, hl, hf, connOf, commitConn]
  · simp [get_or_create_symbol_id, hl, connOf]

lemma store_handle_id (fail : Option FailPoint) (conn : Conn) (ob : Orderbook) :
    (connOf (store_orderbook_snapshot fail conn ob)).handle_id = conn.handle_id := by
  have hg := get_or_create_handle_id fail conn ob.code
  unfold store_orderbook_snapshot
  cases hge : get_or_create_symbol_id fail conn ob.code with
  | error c =>
      rw [hge] at hg
      simpa [connOf, rollbackConn] using hg
  | ok v =>
      obtain ⟨sid, c1⟩ := v
      rw [hge] at hg
      simp [connOf] at hg
      cases fail with
      | none => simp [connOf, commitConn, hg]
      | some fp =>
          cases fp <;> simp [connOf, commitConn, rollbackConn, hg]

/-- Claim C6 (amended): every storage failure — the model's `FailPoint`
covers any exception raised out of `store_orderbook_snapshot`, including a
lost database connection — is swallowed by `_handle_message`'s blanket
`except` clause.  The handler always returns normally with the very same
connection handle it started with: nothing signals the supervisor and no
storage-connection restart ever happens. -/
theorem handler_keeps_storage_connection (ps : Bool) (interval : ℚ)
    (fail : Option FailPoint) (st : StreamerState) (msg : Option Orderbook)
    (now : ℚ) :
    (handle_message ps interval fail st msg now).conn.handle_id =
      st.conn.handle_id := by
  cases msg with
  | none => rfl
  | some ob =>
      have hs := store_handle_id fail st.conn ob
      by_cases hgate : storeGate interval st.last_store ob.code now = true
      · cases hst : store_orderbook_snapshot fail st.conn ob with
        | error c =>
            rw [hst] at hs; simp [connOf] at hs
            simp [handle_message, hgate, hst, hs]
        | ok v =>
            obtain ⟨sid, c⟩ := v
            rw [hst] at hs; simp [connOf] at hs
            cases ps <;> simp [handle_message, hgate, hst, hs]
      · have hgate' : storeGate interval st.last_store ob.code now = false := by
          simpa using hgate
        cases ps <;> simp [handle_message, hgate']

/-- Claim C6 counterexample: a concrete run in which the store raises (here
the snapshot insert fails, exactly what a connection lost mid-call produces)
yet `_handle_message` returns normally and the streamer still holds the same
storage connection handle (id 7) for subsequent messages: no detection, no
signal to the supervisor, no storage-connection restart. -/
theorem no_storage_restart_counterexample :
    isStoreError
      (store_orderbook_snapshot (some .snapInsert) sampleConn sampleOb) = true ∧
    (handle_message false 1 (some .snapInsert) sampleState (some sampleOb)
      5).conn.handle_id = 7 := by
  have hg : storeGate 1 sampleState.last_store sampleOb.code 5 = true := by
    norm_num [storeGate, lookupD, sampleState, sampleOb]
  refine ⟨by decide, ?_⟩
  have hst : store_orderbook_snapshot (some .snapInsert) sampleState.conn
      sampleOb = .error ⟨7, ⟨[⟨1, "USDT-BTC", "BTC", "USDT"⟩], [], [], 2, 1⟩,
        ⟨[⟨1, "USDT-BTC", "BTC", "USDT"⟩], [], [], 2, 1⟩⟩ := by rfl
  simp [handle_message, hg, hst]

/- ### Claim C3: last-store timestamp versus write failure -/

/-- Claim C3 (counterexample): interval 1, a fresh streamer, an admitted
update at time 5 whose write raises — afterwards the last-store map still has
no entry for the instrument, so the recorded time is NOT the update's arrival
time; the next arrival is gated against the old (absent) value and the gate
is re-opened early. -/
theorem failed_write_reopens_gate_counterexample :
    storeGate 1 sampleState.last_store sampleOb.code 5 = true ∧
    isStoreError
      (store_orderbook_snapshot (some .snapInsert) sampleState.conn sampleOb)
      = true ∧
    (handle_message false 1 (some .snapInsert) sampleState (some sampleOb)
        5).last_store.lookup "USDT-BTC" ≠ some 5 := by
  have hg : storeGate 1 [] sampleOb.code 5 = true := by
    norm_num [storeGate, lookupD]
  have hst : store_orderbook_snapshot (some .snapInsert) sampleConn
      sampleOb = .error ⟨7, ⟨[⟨1, "USDT-BTC", "BTC", "USDT"⟩], [], [], 2, 1⟩,
        ⟨[⟨1, "USDT-BTC", "BTC", "USDT"⟩], [], [], 2, 1⟩⟩ := by rfl
  refine ⟨hg, by decide, ?_⟩
  simp [handle_message, sampleState, hg, hst, List.lookup]

/-- Claim C3 (amended): `self._last_store[symbol] = now` is executed only
after `store_orderbook_snapshot` returns normally.  For an admitted update:
if the write raises, the assignment is skipped and the per-instrument
last-store entry is unchanged (a write failure does re-open the gate early);
if the write succeeds, the entry is set to the arrival time. -/
theorem last_store_updated_only_on_success (ps : Bool) (interval : ℚ)
    (fail : Option FailPoint) (st : StreamerState) (ob : Orderbook) (now : ℚ)
    (hgate : storeGate interval st.last_store ob.code now = true) :
    (isStoreError (store_orderbook_snapshot fail st.conn ob) = true →
      (handle_message ps interval fail st (some ob) now).last_store =
        st.last_store) ∧
    (isStoreError (store_orderbook_snapshot fail st.conn ob) = false →
      (handle_message ps interval fail st (some ob) now).last_store =
        setKey st.last_store ob.code now) := by
  cases hst : store_orderbook_snapshot fail st.conn ob with
  | error c =>
      refine ⟨fun _ => ?_, fun h => ?_⟩
      · simp [handle_message, hgate, hst]
      · simp [hst, isStoreError] at h
  | ok v =>
      obtain ⟨sid, c⟩ := v
      refine ⟨fun h => ?_, fun _ => ?_⟩
      · simp [hst, isStoreError] at h
      · cases ps <;> simp [handle_message, hgate, hst]

/-- Claim C3 witness: on a fresh streamer a successful admitted write at
time 5 records 5 for the instrument. -/
theorem last_store_updated_only_on_success_witness :
    (handle_message false 1 none sampleState (some sampleOb) 5).last_store =
      setKey sampleState.last_store "USDT-BTC" 5 :=
  (last_store_updated_only_on_success false 1 none sampleState sampleOb 5
      (by norm_num [storeGate, lookupD, sampleState, sampleOb])).2 (by rfl)

/- ### Claim C1: atomicity of the three store steps -/

lemma get_or_create_found (fail : Option FailPoint) (conn : Conn)
    (code : String) (sid : ℕ) (h : lookupSymbol conn.pending code = some sid) :
    get_or_create_symbol_id fail conn code = .ok (sid, conn) := by
  simp [get_or_create_symbol_id, h]

lemma get_or_create_new (fail : Option FailPoint) (conn : Conn) (code : String)
    (h : lookupSymbol conn.pending code = none)
    (hf : fail ≠ some .symInsert) :
    get_or_create_symbol_id fail conn code =
      .ok (conn.pending.next_symbol_id,
        ⟨conn.handle_id,
         insertSymbol conn.pending code (parseSymbol code).1 (parseSymbol code).2,
         insertSymbol conn.pending code (parseSymbol code).1 (parseSymbol code).2⟩) := by
  simp [get_or_create_symbol_id, h, hf, commitConn]

lemma get_or_create_symfail (conn : Conn) (code : String)
    (h : lookupSymbol conn.pending code = none) :
    get_or_create_symbol_id (some .symInsert) conn code =
      .error (rollbackConn conn) := by
  simp [get_or_create_symbol_id, h]

/-- Claim C1 (counterexample): starting from an empty committed store, a
failure at Step 2 (the snapshot insert) for a previously-unseen code leaves
the freshly created Instrument row committed and observable — Step 1's
`get_or_create_symbol_id` issued its own `conn.commit()` before Step 2 ran,
so the three steps are not one atomic unit of work. -/
theorem partial_instrument_commit_counterexample :
    store_orderbook_snapshot (some .snapInsert) sampleConn sampleOb =
      .error ⟨7, ⟨[⟨1, "USDT-BTC", "BTC", "USDT"⟩], [], [], 2, 1⟩,
        ⟨[⟨1, "USDT-BTC", "BTC", "USDT"⟩], [], [], 2, 1⟩⟩ ∧
    countCode sampleConn.committed "USDT-BTC" = 0 ∧
    countCode (⟨[⟨1, "USDT-BTC", "BTC", "USDT"⟩], [], [], 2, 1⟩ : DB)
      "USDT-BTC" = 1 :=
  ⟨rfl, rfl, rfl⟩

/-- Claim C1 (amended): Steps 2–3 are atomic with each other — a failure at
any step leaves no Snapshot row and no Price Level row for the update in the
committed store, and the connection's transaction is rolled back — but Step
1's Instrument resolution commits on its own, so the committed symbol table
afterwards is either unchanged or extended by exactly the new Instrument row
for the update's code. -/
theorem store_failure_partial_commit (fail : Option FailPoint) (conn : Conn)
    (ob : Orderbook) (c : Conn) (hsync : conn.pending = conn.committed)
    (herr : store_orderbook_snapshot fail conn ob = .error c) :
    c.pending = c.committed ∧
    c.committed.snapshots = conn.committed.snapshots ∧
    c.committed.dataRows = conn.committed.dataRows ∧
    (c.committed.symbols = conn.committed.symbols ∨
      c.committed.symbols = conn.committed.symbols ++
        [⟨conn.committed.next_symbol_id, ob.code, (parseSymbol ob.code).1,
          (parseSymbol ob.code).2⟩]) := by
  cases hl : lookupSymbol conn.pending ob.code with
  | some sid =>
      rw [store_orderbook_snapshot, get_or_create_found fail conn ob.code sid hl]
        at herr
      by_cases hsnap : fail = some FailPoint.snapInsert
      · simp [hsnap, rollbackConn] at herr
        subst herr
        exact ⟨rfl, rfl, rfl, Or.inl rfl⟩
      · simp [hsnap] at herr
        cases fail with
        | none => simp at herr
        | some fp =>
            cases fp with
            | symInsert => simp at herr
            | snapInsert => simp at hsnap
            | levelInsert k =>
                simp [rollbackConn] at herr
                subst herr
                exact ⟨rfl, rfl, rfl, Or.inl rfl⟩
  | none =>
      by_cases hsym : fail = some FailPoint.symInsert
      · rw [store_orderbook_snapshot] at herr
        rw [hsym, get_or_create_symfail conn ob.code hl] at herr
        simp [rollbackConn] at herr
        subst herr
        exact ⟨rfl, rfl, rfl, Or.inl rfl⟩
      · rw [store_orderbook_snapshot, get_or_create_new fail conn ob.code hl hsym]
          at herr
        by_cases hsnap : fail = some FailPoint.snapInsert
        · simp [hsnap, rollbackConn] at herr
          subst herr
          refine ⟨rfl, by simp [insertSymbol, hsync], by simp [insertSymbol, hsync],
            Or.inr ?_⟩
          simp [insertSymbol, hsync]
        · simp [hsnap] at herr
          cases fail with
          | none => simp at herr
          | some fp =>
              cases fp with
              | symInsert => simp at hsym
              | snapInsert => simp at hsnap
              | levelInsert k =>
                  simp [rollbackConn] at herr
                  subst herr
                  refine ⟨rfl, by simp [insertSymbol, hsync],
                    by simp [insertSymbol, hsync], Or.inr ?_⟩
                  simp [insertSymbol, hsync]

/-- Claim C1 witness: the amended statement at the concrete Step-2 failure of
the counterexample run. -/
theorem store_failure_partial_commit_witness :
    (⟨[⟨1, "USDT-BTC", "BTC", "USDT"⟩], [], [], 2, 1⟩ : DB) =
      (⟨[⟨1, "USDT-BTC", "BTC", "USDT"⟩], [], [], 2, 1⟩ : DB) ∧
    (⟨[⟨1, "USDT-BTC", "BTC", "USDT"⟩], [], [], 2, 1⟩ : DB).snapshots =
      sampleConn.committed.snapshots ∧
    (⟨[⟨1, "USDT-BTC", "BTC", "USDT"⟩], [], [], 2, 1⟩ : DB).dataRows =
      sampleConn.committed.dataRows ∧
    ((⟨[⟨1, "USDT-BTC", "BTC", "USDT"⟩], [], [], 2, 1⟩ : DB).symbols =
        sampleConn.committed.symbols ∨
      (⟨[⟨1, "USDT-BTC", "BTC", "USDT"⟩], [], [], 2, 1⟩ : DB).symbols =
        sampleConn.committed.symbols ++
          [⟨sampleConn.committed.next_symbol_id, sampleOb.code,
            (parseSymbol sampleOb.code).1, (parseSymbol sampleOb.code).2⟩]) :=
  store_failure_partial_commit (some .snapInsert) sampleConn sampleOb
    ⟨7, ⟨[⟨1, "USDT-BTC", "BTC", "USDT"⟩], [], [], 2, 1⟩,
      ⟨[⟨1, "USDT-BTC", "BTC", "USDT"⟩], [], [], 2, 1⟩⟩ rfl rfl

/- ### Claim C4: shape of a successful store -/

lemma mkLevelRows_length (sid symid : ℕ) (ts : ℤ) :
    ∀ (us : List BookUnit) (l : ℕ), (mkLevelRows sid symid ts l us).length = us.length
  | [], _ => rfl
  | u :: us, l => by simp [mkLevelRows, mkLevelRows_length sid symid ts us (l+1)]

lemma mkLevelRows_levels (sid symid : ℕ) (ts : ℤ) :
    ∀ (us : List BookUnit) (l : ℕ),
      (mkLevelRows sid symid ts l us).map (·.unit_level) = List.range' l us.length
  | [], _ => rfl
  | u :: us, l => by
      simp [mkLevelRows, List.range'_succ, mkLevelRows_levels sid symid ts us (l+1)]

lemma mkLevelRows_mem (sid symid : ℕ) (ts : ℤ) :
    ∀ (us : List BookUnit) (l : ℕ) (r : DataRow),
      r ∈ mkLevelRows sid symid ts l us →
      r.snapshot_id = sid ∧ r.symbol_id = symid ∧ r.timestamp = ts
  | u :: us, l, r, h => by
      rcases List.mem_cons.1 h with h | h
      · subst h; exact ⟨rfl, rfl, rfl⟩
      · exact mkLevelRows_mem sid symid ts us (l+1) r h

lemma store_none_ok (conn : Conn) (ob : Orderbook) (sid : ℕ) (conn1 : Conn)
    (hge : get_or_create_symbol_id none conn ob.code = .ok (sid, conn1)) :
    store_orderbook_snapshot none conn ob =
      .ok (conn1.pending.next_snapshot_id, commitConn { conn1 with
        pending := insertLevels (insertSnapshot conn1.pending sid ob)
          conn1.pending.next_snapshot_id sid ob.timestamp ob.orderbook_units }) := by
  simp [store_orderbook_snapshot, hge]

/-- Claim C4 (confirmed): a store with no failure injected succeeds and,
relative to the committed state it started from, appends exactly one Snapshot
row — whose recorded `units_count` is the number N of levels of the update —
and exactly N Price Level rows whose ranks are the contiguous sequence
`1..N` in level-list order, every one of the N+1 rows carrying the same
resolved instrument id and the update timestamp. -/
theorem store_success_shape (conn : Conn) (ob : Orderbook)
    (hsync : conn.pending = conn.committed) :
    ∃ (sid snapId : ℕ) (c' : Conn),
      store_orderbook_snapshot none conn ob = .ok (snapId, c') ∧
      c'.pending = c'.committed ∧
      c'.committed.snapshots = conn.committed.snapshots ++
        [⟨snapId, sid, ob.timestamp, ob.total_ask_size, ob.total_bid_size,
          ob.stream_type, ob.orderbook_units.length⟩] ∧
      ∃ newRows : List DataRow,
        c'.committed.dataRows = conn.committed.dataRows ++ newRows ∧
        newRows.length = ob.orderbook_units.length ∧
        newRows.map (·.unit_level) = List.range' 1 ob.orderbook_units.length ∧
        ∀ r ∈ newRows, r.snapshot_id = snapId ∧ r.symbol_id = sid ∧
          r.timestamp = ob.timestamp := by
  cases hl : lookupSymbol conn.pending ob.code with
  | some sid =>
      have hge := get_or_create_found none conn ob.code sid hl
      have hst := store_none_ok conn ob sid conn hge
      rw [hsync] at hst
      refine ⟨sid, conn.committed.next_snapshot_id, _, hst, rfl, ?_,
        mkLevelRows conn.committed.next_snapshot_id sid ob.timestamp 1
          ob.orderbook_units, ?_,
        mkLevelRows_length conn.committed.next_snapshot_id sid ob.timestamp
          ob.orderbook_units 1,
        mkLevelRows_levels conn.committed.next_snapshot_id sid ob.timestamp
          ob.orderbook_units 1,
        fun r hr => mkLevelRows_mem conn.committed.next_snapshot_id sid
          ob.timestamp ob.orderbook_units 1 r hr⟩
      · simp [commitConn, insertLevels, insertSnapshot]
      · simp [commitConn, insertLevels, insertSnapshot]
  | none =>
      have hge := get_or_create_new none conn ob.code hl (by simp)
      have hst := store_none_ok conn ob conn.pending.next_symbol_id _ hge
      rw [hsync] at hst
      refine ⟨conn.committed.next_symbol_id, conn.committed.next_snapshot_id, _,
        hst, rfl, ?_,
        mkLevelRows conn.committed.next_snapshot_id conn.committed.next_symbol_id
          ob.timestamp 1 ob.orderbook_units, ?_,
        mkLevelRows_length conn.committed.next_snapshot_id
          conn.committed.next_symbol_id ob.timestamp ob.orderbook_units 1,
        mkLevelRows_levels conn.committed.next_snapshot_id
          conn.committed.next_symbol_id ob.timestamp ob.orderbook_units 1,
        fun r hr => mkLevelRows_mem conn.committed.next_snapshot_id
          conn.committed.next_symbol_id ob.timestamp ob.orderbook_units 1 r hr⟩
      · simp [commitConn, insertLevels, insertSnapshot, insertSymbol]
      · simp [commitConn, insertLevels, insertSnapshot, insertSymbol]

/-- Claim C4 witness: the success shape at the concrete two-level sample. -/
theorem store_success_shape_witness :
    ∃ (sid snapId : ℕ) (c' : Conn),
      store_orderbook_snapshot none sampleConn sampleOb = .ok (snapId, c') ∧
      c'.pending = c'.committed ∧
      c'.committed.snapshots = sampleConn.committed.snapshots ++
        [⟨snapId, sid, sampleOb.timestamp, sampleOb.total_ask_size,
          sampleOb.total_bid_size, sampleOb.stream_type,
          sampleOb.orderbook_units.length⟩] ∧
      ∃ newRows : List DataRow,
        c'.committed.dataRows = sampleConn.committed.dataRows ++ newRows ∧
        newRows.length = sampleOb.orderbook_units.length ∧
        newRows.map (·.unit_level) = List.range' 1 sampleOb.orderbook_units.length ∧
        ∀ r ∈ newRows, r.snapshot_id = snapId ∧ r.symbol_id = sid ∧
          r.timestamp = sampleOb.timestamp :=
  store_success_shape sampleConn sampleOb rfl

/- ### Claim C7: base/quote derivation for new instrument codes -/

lemma takeWhile_append_dash (r : List Char) :
    ∀ (q : List Char), (∀ c ∈ q, c ≠ '-') →
      (q ++ '-' :: r).takeWhile (fun c => c != '-') = q
  | [], _ => by simp
  | c :: q, h => by
      have hc : c ≠ '-' := h c (List.mem_cons_self c q)
      simp [List.takeWhile_cons, hc,
        takeWhile_append_dash r q (fun x hx => h x (List.mem_cons_of_mem c hx))]

lemma dropWhile_append_dash (r : List Char) :
    ∀ (q : List Char), (∀ c ∈ q, c ≠ '-') →
      (q ++ '-' :: r).dropWhile (fun c => c != '-') = '-' :: r
  | [], _ => by simp
  | c :: q, h => by
      have hc : c ≠ '-' := h c (List.mem_cons_self c q)
      simp [List.dropWhile_cons, hc,
        dropWhile_append_dash r q (fun x hx => h x (List.mem_cons_of_mem c hx))]

/-- Claim C7 (confirmed): for a resolved-as-new code,
`get_or_create_symbol_id` inserts the row with base/quote taken from
`parseSymbol`, and `parseSymbol` maps a code `quote ++ "-" ++ rest` (split at
the first delimiter, `quote` delimiter-free) to base `rest` with quote
`quote`, while a delimiter-free code becomes the base with the quote
defaulting to the fixed fallback `"KRW"`. -/
theorem symbol_parse_rule :
    (∀ (q r : List Char), (∀ c ∈ q, c ≠ '-') →
        parseSymbol (String.mk (q ++ '-' :: r)) = (String.mk r, String.mk q)) ∧
    (∀ code : String, '-' ∉ code.toList → parseSymbol code = (code, "KRW")) ∧
    (∀ (conn : Conn) (code : String), lookupSymbol conn.pending code = none →
        get_or_create_symbol_id none conn code =
          .ok (conn.pending.next_symbol_id, ⟨conn.handle_id,
            insertSymbol conn.pending code (parseSymbol code).1 (parseSymbol code).2,
            insertSymbol conn.pending code (parseSymbol code).1
              (parseSymbol code).2⟩)) := by
  refine ⟨fun q r h => ?_, fun code h => ?_,
    fun conn code h => get_or_create_new none conn code h (by simp)⟩
  · have hmem : '-' ∈ q ++ '-' :: r := by simp
    have hcont : (q ++ '-' :: r).contains '-' = true := by
      simp [List.contains, hmem]
    simp [parseSymbol, String.mk, hcont, takeWhile_append_dash r q h,
      dropWhile_append_dash r q h]
  · have h' : ¬('-' ∈ code.data) := by simp [String.toList] at h; exact h
    simp [parseSymbol, h']

/-- Claim C7 witness: concrete codes with and without the delimiter. -/
theorem symbol_parse_rule_witness :
    parseSymbol (String.mk (['U','S','D','T'] ++ '-' :: ['B','T','C'])) =
      (String.mk ['B','T','C'], String.mk ['U','S','D','T']) ∧
    parseSymbol "ABC" = ("ABC", "KRW") ∧
    get_or_create_symbol_id none sampleConn "USDT-BTC" =
      .ok (sampleConn.pending.next_symbol_id, ⟨sampleConn.handle_id,
        insertSymbol sampleConn.pending "USDT-BTC" (parseSymbol "USDT-BTC").1
          (parseSymbol "USDT-BTC").2,
        insertSymbol sampleConn.pending "USDT-BTC" (parseSymbol "USDT-BTC").1
          (parseSymbol "USDT-BTC").2⟩) :=
  ⟨symbol_parse_rule.1 ['U','S','D','T'] ['B','T','C'] (by decide),
   symbol_parse_rule.2.1 "ABC" (by decide),
   symbol_parse_rule.2.2 sampleConn "USDT-BTC" (by rfl)⟩

/- ### Claim C8: spread printing, its timer, and non-interference -/

lemma maxByAsk_ask_price :
    ∀ (us : List BookUnit) (u : BookUnit),
      (maxByAsk u us).ask_price = maxAskPrice u us
  | [], u => rfl
  | v :: us, u => by
      have h := maxByAsk_ask_price us (if u.ask_price < v.ask_price then v else u)
      have hite : (if u.ask_price < v.ask_price then v else u).ask_price =
          max u.ask_price v.ask_price := by
        by_cases hlt : u.ask_price < v.ask_price
        · simp [hlt, max_eq_right (le_of_lt hlt)]
        · simp [hlt, max_eq_left (le_of_not_lt hlt)]
      simp only [maxByAsk, h, maxAskPrice, List.map_cons, List.foldl_cons, hite]

lemma minByBid_bid_price :
    ∀ (us : List BookUnit) (u : BookUnit),
      (minByBid u us).bid_price = minBidPrice u us
  | [], u => rfl
  | v :: us, u => by
      have h := minByBid_bid_price us (if v.bid_price < u.bid_price then v else u)
      have hite : (if v.bid_price < u.bid_price then v else u).bid_price =
          min u.bid_price v.bid_price := by
        by_cases hlt : v.bid_price < u.bid_price
        · simp [hlt, min_eq_right (le_of_lt hlt)]
        · simp [hlt, min_eq_left (le_of_not_lt hlt)]
      simp only [minByBid, h, minBidPrice, List.map_cons, List.foldl_cons, hite]

lemma handle_message_persistPart (ps ps' : Bool) (interval : ℚ)
    (fail : Option FailPoint) (conn : Conn) (lp lp' ls : List (String × ℚ))
    (msg : Option Orderbook) (now : ℚ) :
    persistPart (handle_message ps interval fail ⟨conn, lp, ls⟩ msg now) =
      persistPart (handle_message ps' interval fail ⟨conn, lp', ls⟩ msg now) := by
  cases msg with
  | none => rfl
  | some ob =>
      by_cases hgate : storeGate interval ls ob.code now = true
      · cases hst : store_orderbook_snapshot fail conn ob with
        | error c =>
            simp [handle_message, hgate, hst, persistPart]
        | ok v =>
            obtain ⟨sid, c⟩ := v
            cases ps <;> cases ps' <;>
              simp [handle_message, hgate, hst, persistPart]
      · have hgate' : storeGate interval ls ob.code now = false := by
          simpa using hgate
        cases ps <;> cases ps' <;>
          simp [handle_message, hgate', persistPart]

lemma runMessages_persistPart :
    ∀ (msgs : List (RawMessage × ℚ × Option FailPoint)) (interval : ℚ)
      (st st' : StreamerState) (ps ps' : Bool),
      persistPart st = persistPart st' →
      persistPart (runMessages ps interval st msgs) =
        persistPart (runMessages ps' interval st' msgs)
  | [], _, st, st', _, _, h => h
  | (m, now, fail) :: rest, interval, st, st', ps, ps', h => by
      obtain ⟨conn, lp, ls⟩ := st
      obtain ⟨conn', lp', ls'⟩ := st'
      simp [persistPart] at h
      obtain ⟨hc, hl⟩ := h
      subst hc; subst hl
      exact runMessages_persistPart rest interval _ _ ps ps'
        (handle_message_persistPart ps ps' interval fail conn lp lp' ls
          (decodeMessage m) now)

/-- Claim C8 (confirmed): when its own per-instrument 1-second timer is open
the spread printer emits `max(ask prices) − min(bid prices)` over all levels
of the update and records the arrival time in `_last_print`; when the timer
is closed it emits nothing and changes nothing; the persistence-relevant
state (connection and `_last_store`) after handling any message is
independent of the print flag and of the `_last_print` map; hence over any
message sequence the stored snapshots are identical with spread printing
enabled or disabled. -/
theorem spread_printing_noninterference :
    (∀ (lp : List (String × ℚ)) (ob : Orderbook) (now : ℚ) (u : BookUnit)
        (us : List BookUnit), ob.orderbook_units = u :: us →
        1 ≤ now - lookupD lp ob.code →
        maybe_print_spread lp ob now =
          (setKey lp ob.code now,
           some (maxAskPrice u us - minBidPrice u us))) ∧
    (∀ (lp : List (String × ℚ)) (ob : Orderbook) (now : ℚ),
        now - lookupD lp ob.code < 1 →
        maybe_print_spread lp ob now = (lp, none)) ∧
    (∀ (ps ps' : Bool) (interval : ℚ) (fail : Option FailPoint) (conn : Conn)
        (lp lp' ls : List (String × ℚ)) (msg : Option Orderbook) (now : ℚ),
        persistPart (handle_message ps interval fail ⟨conn, lp, ls⟩ msg now) =
          persistPart (handle_message ps' interval fail ⟨conn, lp', ls⟩ msg now)) ∧
    (∀ (interval : ℚ) (st : StreamerState)
        (msgs : List (RawMessage × ℚ × Option FailPoint)),
        persistPart (runMessages true interval st msgs) =
          persistPart (runMessages false interval st msgs)) := by
  refine ⟨fun lp ob now u us hu hopen => ?_, fun lp ob now hclosed => ?_,
    handle_message_persistPart,
    fun interval st msgs => runMessages_persistPart msgs interval st st true false rfl⟩
  · simp [maybe_print_spread, hu, hopen, maxByAsk_ask_price, minByBid_bid_price]
  · simp [maybe_print_spread, not_le.2 hclosed]

/-- Claim C8 witness: the printer on the concrete sample emits
`max ask − min bid` of the two levels, and with a closed timer it is silent. -/
theorem spread_printing_noninterference_witness :
    maybe_print_spread [] sampleOb 5 =
      (setKey [] "USDT-BTC" 5,
       some (maxAskPrice ⟨10, 9, 1, 2⟩ [⟨11, 8, 3, 4⟩] -
             minBidPrice ⟨10, 9, 1, 2⟩ [⟨11, 8, 3, 4⟩])) ∧
    maybe_print_spread [("USDT-BTC", 5)] sampleOb (11/2) =
      ([("USDT-BTC", 5)], none) :=
  ⟨spread_printing_noninterference.1 [] sampleOb 5 ⟨10, 9, 1, 2⟩ [⟨11, 8, 3, 4⟩]
      rfl (by norm_num [lookupD]),
   spread_printing_noninterference.2.1 [("USDT-BTC", 5)] sampleOb (11/2)
      (by norm_num [lookupD, sampleOb, List.lookup])⟩

/- ### Claim C5: concurrent first-sight of a new code -/

lemma lookupSymbol_isSome_iff (db : DB) (code : String) :
    (lookupSymbol db code).isSome = true ↔ 1 ≤ countCode db code := by
  simp [lookupSymbol, countCode, List.find?_isSome, Nat.succ_le_iff,
    List.length_pos, List.filter_eq_nil_iff]

lemma lookupSymbol_none_count (db : DB) (code : String)
    (h : (lookupSymbol db code).isSome = false) : countCode db code = 0 := by
  simp [lookupSymbol, List.find?_isSome] at h
  simp [countCode, List.filter_eq_nil_iff, List.length_eq_zero]
  exact h

lemma countCode_insert_self (db : DB) (code b q : String) :
    countCode (insertSymbol db code b q) code = countCode db code + 1 := by
  simp [countCode, insertSymbol, List.filter_append]

/-- The inductive invariant of the two-caller race: at most one row for the
code ever exists; a finished caller implies the row exists; and a row can
only exist once some caller has successfully obtained an id. -/
def concInv (code : String) (s : ConcState) : Prop :=
  countCode s.db code ≤ 1 ∧
  (callerDone s.c0 = true → 1 ≤ countCode s.db code) ∧
  (callerDone s.c1 = true → 1 ≤ countCode s.db code) ∧
  (1 ≤ countCode s.db code → callerOk s.c0 = true ∨ callerOk s.c1 = true)

lemma callerStep_inv (code : String) (db : DB) (t other : CallerState)
    (h1 : countCode db code ≤ 1)
    (h2 : callerDone t = true → 1 ≤ countCode db code)
    (h3 : callerDone other = true → 1 ≤ countCode db code)
    (h4 : 1 ≤ countCode db code → callerOk t = true ∨ callerOk other = true) :
    countCode (callerStep code db t).1 code ≤ 1 ∧
    (callerDone (callerStep code db t).2 = true →
      1 ≤ countCode (callerStep code db t).1 code) ∧
    (callerDone other = true → 1 ≤ countCode (callerStep code db t).1 code) ∧
    (1 ≤ countCode (callerStep code db t).1 code →
      callerOk (callerStep code db t).2 = true ∨ callerOk other = true) := by
  cases t with
  | atSelect =>
      cases hl : lookupSymbol db code with
      | some sid =>
          have hs : 1 ≤ countCode db code := by
            rw [← lookupSymbol_isSome_iff]; simp [hl]
          simp only [callerStep, hl]
          exact ⟨h1, fun _ => hs, h3, fun _ => Or.inl rfl⟩
      | none =>
          simp only [callerStep, hl]
          refine ⟨h1, by simp [callerDone], h3, fun hc => ?_⟩
          rcases h4 hc with h | h
          · simp [callerOk] at h
          · exact Or.inr h
  | atInsert =>
      by_cases hrow : (lookupSymbol db code).isSome = true
      · have hs : 1 ≤ countCode db code := (lookupSymbol_isSome_iff db code).1 hrow
        simp only [callerStep, if_pos hrow]
        refine ⟨h1, fun _ => hs, h3, fun hc => ?_⟩
        rcases h4 hc with h | h
        · simp [callerOk] at h
        · exact Or.inr h
      · have hc0 : countCode db code = 0 :=
          lookupSymbol_none_count db code (by simpa using hrow)
        have hrow' : ¬((lookupSymbol db code).isSome = true) := hrow
        simp only [callerStep, if_neg hrow']
        rw [countCode_insert_self, hc0]
        exact ⟨le_refl 1, fun _ => le_refl 1, fun _ => le_refl 1,
          fun _ => Or.inl rfl⟩
  | finOk sid =>
      simp only [callerStep]
      exact ⟨h1, h2, h3, h4⟩
  | finRaised =>
      simp only [callerStep]
      exact ⟨h1, h2, h3, h4⟩

lemma concStep_inv (code : String) (s : ConcState) (b : Bool)
    (h : concInv code s) : concInv code (concStep code s b) := by
  obtain ⟨h1, h2, h3, h4⟩ := h
  cases b
  · have g := callerStep_inv code s.db s.c1 s.c0 h1 h3 h2
      (fun hc => (h4 hc).symm)
    exact ⟨g.1, g.2.2.1, g.2.1, fun hc => (g.2.2.2 hc).symm⟩
  · have g := callerStep_inv code s.db s.c0 s.c1 h1 h2 h3 h4
    exact ⟨g.1, g.2.1, g.2.2.1, g.2.2.2⟩

lemma concInv_run (code : String) :
    ∀ (sched : List Bool) (s : ConcState),
      concInv code s → concInv code (concRun code s sched)
  | [], _, h => h
  | b :: bs, s, h => concInv_run code bs _ (concStep_inv code s b h)

/-- Claim C5 (counterexample): the schedule where both callers run their
SELECT before either INSERTs — caller 0 steps, caller 1 steps, caller 0
inserts and commits, caller 1 inserts — ends with caller 1 raising on the
unique `symbol_code` constraint: the select-then-insert implementation lets
one concurrent caller crash (its update is lost), refuting "neither caller
crashes" and with it the claimed single-conditional-insert implementation. -/
theorem concurrent_insert_raises_counterexample :
    (concRun "USDT-NEW" ⟨sampleDB, .atSelect, .atSelect⟩
        [true, false, true, false]).c1 = .finRaised ∧
    countCode (concRun "USDT-NEW" ⟨sampleDB, .atSelect, .atSelect⟩
        [true, false, true, false]).db "USDT-NEW" = 1 := by
  constructor
  · rfl
  · rfl

/-- Claim C5 (amended): under every interleaving of two concurrent
`get_or_create_symbol_id` callers for a previously-unseen code in which both
callers finish, exactly one Instrument row for that code exists afterwards
(the unique-code constraint is never corrupted) and at least one caller
obtains an id — but the implementation is a separate SELECT followed by a
plain INSERT, and in interleavings where both SELECT first the second
inserter raises, so that caller crashes. -/
theorem concurrent_first_sight (code : String) (db : DB) (sched : List Bool)
    (h0 : countCode db code = 0)
    (hd0 : callerDone (concRun code ⟨db, .atSelect, .atSelect⟩ sched).c0 = true)
    (hd1 : callerDone (concRun code ⟨db, .atSelect, .atSelect⟩ sched).c1 = true) :
    countCode (concRun code ⟨db, .atSelect, .atSelect⟩ sched).db code = 1 ∧
    (callerOk (concRun code ⟨db, .atSelect, .atSelect⟩ sched).c0 = true ∨
     callerOk (concRun code ⟨db, .atSelect, .atSelect⟩ sched).c1 = true) := by
  have hinv : concInv code ⟨db, .atSelect, .atSelect⟩ := by
    refine ⟨by rw [h0]; exact Nat.zero_le 1, ?_, ?_, ?_⟩
    · intro h; simp [callerDone] at h
    · intro h; simp [callerDone] at h
    · intro h; rw [h0] at h; exact absurd h (by norm_num)
  obtain ⟨g1, g2, g3, g4⟩ := concInv_run code sched _ hinv
  have hge := g2 hd0
  exact ⟨le_antisymm g1 hge, g4 hge⟩

/-- Claim C5 witness: a fully sequential schedule — caller 0 selects,
inserts, then caller 1 selects and finds the row — where both finish, one
row exists, and both callers in fact succeed. -/
theorem concurrent_first_sight_witness :
    countCode (concRun "USDT-NEW" ⟨sampleDB, .atSelect, .atSelect⟩
        [true, true, false]).db "USDT-NEW" = 1 ∧
    (callerOk (concRun "USDT-NEW" ⟨sampleDB, .atSelect, .atSelect⟩
        [true, true, false]).c0 = true ∨
     callerOk (concRun "USDT-NEW" ⟨sampleDB, .atSelect, .atSelect⟩
        [true, true, false]).c1 = true) :=
  concurrent_first_sight "USDT-NEW" sampleDB [true, true, false] rfl
    (by rfl) (by rfl)

end Upbit
